import Mathlib

/-!
Shallow embedding of the StayFinder booking backend.

The definitions below translate, as directly as Lean allows, the handlers in
`src/routes/bookings.js`, the schema hooks in `src/models/Booking.js`, and the
pagination logic in `src/routes/listings.js`.

Modelling conventions:
* Dates are JavaScript `Date` values, i.e. milliseconds since the epoch,
  modelled as `Nat`.  `today` stands for the value computed by
  `today.setHours(0,0,0,0)` — the start of the current day — and is passed
  explicitly to each operation.
* Document identifiers are `Nat`.
* JavaScript numbers used in money/rating arithmetic are modelled as `ℚ`
  (exact arithmetic; the spec's scenarios use exactly representable values).
* The Mongo collections are a `Store` record of lists; `findById`/`findOne`
  become `List.find?` / `List.any`.
* Each route handler becomes a function from the request data and the store to
  an error-or-result together with the resulting store; an error leaves the
  store unchanged, mirroring the handlers' early returns (the database is not
  written on those paths).
-/

namespace StayFinder

/-- `1000 * 60 * 60 * 24`, the divisor used in `bookings.js` line 108. -/
def msPerDay : Nat := 1000 * 60 * 60 * 24

/-- Guest breakdown of a booking request (`guests{adults,children,infants}`).
`children`/`infants` are optional in the route; an absent field behaves as 0
(`guests.children || 0`), so they are plain `Nat` here. -/
structure Guests where
  adults : Nat
  children : Nat
  infants : Nat
deriving DecidableEq

/-- `status` enumeration of `bookingSchema`. -/
inductive BookingStatus
  | pending
  | confirmed
  | cancelled
  | completed
deriving DecidableEq

/-- The `review` subdocument of a booking. -/
structure Review where
  rating : Nat
  comment : String
  reviewDate : Nat
deriving DecidableEq

/-- A persisted `Booking` document (the fields the routes touch). -/
structure Booking where
  id : Nat
  listing : Nat
  guest : Nat
  checkIn : Nat
  checkOut : Nat
  guests : Guests
  totalAmount : ℚ
  status : BookingStatus
  cancellationReason : Option String
  review : Option Review
deriving DecidableEq

/-- The `rating` subdocument of a listing: running average and count. -/
structure RatingAgg where
  average : ℚ
  count : Nat
deriving DecidableEq

/-- A persisted `Listing` document (the fields the booking routes touch). -/
structure Listing where
  id : Nat
  host : Nat
  price : ℚ
  maxGuests : Nat
  rating : RatingAgg
  isActive : Bool
deriving DecidableEq

/-- The database state: the two collections the booking routes read/write. -/
structure Store where
  listings : List Listing
  bookings : List Booking
deriving DecidableEq

/-- `Listing.findById`. -/
def findListing (s : Store) (id : Nat) : Option Listing :=
  s.listings.find? (fun l => l.id == id)

/-- `Booking.findById`. -/
def findBooking (s : Store) (id : Nat) : Option Booking :=
  s.bookings.find? (fun b => b.id == id)

/-- Replace the booking with the same id (the effect of `booking.save()` on an
existing document). -/
def updateBooking (s : Store) (b : Booking) : Store :=
  { s with bookings := s.bookings.map (fun x => if x.id == b.id then b else x) }

/-- Replace the listing with the same id (the effect of `listing.save()`). -/
def updateListing (s : Store) (l : Listing) : Store :=
  { s with listings := s.listings.map (fun x => if x.id == l.id then l else x) }

/-- `bookingSchema.pre('save')` in `models/Booking.js`: the save goes through
iff `checkIn < checkOut` and `checkIn` is not before the start of the current
day.  (The hook calls `next(err)` on the first violated condition; all that is
observable is whether any condition fails.)  This hook runs on **every** save
of a booking document, not only on creation. -/
def saveOk (today checkIn checkOut : Nat) : Bool :=
  decide (checkIn < checkOut) && decide (today ≤ checkIn)

/-- Body of `POST /api/bookings`. -/
structure CreateReq where
  listing : Nat
  checkIn : Nat
  checkOut : Nat
  guests : Guests
deriving DecidableEq

/-- The `express-validator` chain of `POST /api/bookings`:
`checkIn` must not be before the start of the current day, `checkOut` must be
strictly after `checkIn`, and at least one adult is required (the
`children`/`infants` non-negativity checks are vacuous with `Nat` fields).
All field validators run before the handler body. -/
def validCreate (today : Nat) (r : CreateReq) : Bool :=
  decide (today ≤ r.checkIn) && decide (r.checkIn < r.checkOut) &&
    decide (1 ≤ r.guests.adults)

/-- `guests.adults + (guests.children || 0) + (guests.infants || 0)`. -/
def totalGuests (g : Guests) : Nat :=
  g.adults + g.children + g.infants

/-- The `Booking.findOne` overlap predicate of `bookings.js` lines 90–99:
same listing, status `pending` or `confirmed`, `checkIn < checkOutDate` and
`checkOut > checkInDate`. -/
def overlapsReq (r : CreateReq) (b : Booking) : Bool :=
  (b.listing == r.listing) &&
    (b.status == BookingStatus.pending || b.status == BookingStatus.confirmed) &&
    decide (b.checkIn < r.checkOut) && decide (b.checkOut > r.checkIn)

/-- `Math.ceil((checkOutDate - checkInDate) / (1000*60*60*24))`, on the code
paths where `checkOut > checkIn` (guaranteed by the validators before the
computation is reached). -/
def nights (checkIn checkOut : Nat) : Nat :=
  (checkOut - checkIn + msPerDay - 1) / msPerDay

/-- The distinct failures of `POST /api/bookings`, in source order. -/
inductive CreateError
  | validation
  | listingNotFound
  | listingInactive
  | capacity
  | dateConflict
  | saveFailed
deriving DecidableEq

/-- Outcome of `POST /api/bookings`: the error (if any), the resulting store,
and the created booking (if any). -/
structure CreateResult where
  error : Option CreateError
  store : Store
  booking : Option Booking
deriving DecidableEq

/-- The document built by `new Booking({...})` in the creation handler:
status defaults to `pending`, `totalAmount = nights * listing.price`. -/
def newBookingOf (userId newId : Nat) (r : CreateReq) (listing : Listing) :
    Booking :=
  { id := newId
    listing := r.listing
    guest := userId
    checkIn := r.checkIn
    checkOut := r.checkOut
    guests := r.guests
    totalAmount := (nights r.checkIn r.checkOut : ℚ) * listing.price
    status := BookingStatus.pending
    cancellationReason := none
    review := none }

/-- Handler of `POST /api/bookings` (`bookings.js` lines 12–136):
field validation, then listing existence, `isActive`, guest capacity, the
overlap query, the total-amount computation, and `booking.save()` (which runs
the schema's pre-save hook). -/
def createBooking (today userId newId : Nat) (s : Store) (r : CreateReq) :
    CreateResult :=
  if validCreate today r = false then ⟨some CreateError.validation, s, none⟩
  else
    match findListing s r.listing with
    | none => ⟨some CreateError.listingNotFound, s, none⟩
    | some listing =>
      if listing.isActive = false then ⟨some CreateError.listingInactive, s, none⟩
      else if listing.maxGuests < totalGuests r.guests then
        ⟨some CreateError.capacity, s, none⟩
      else if s.bookings.any (overlapsReq r) then
        ⟨some CreateError.dateConflict, s, none⟩
      else if saveOk today r.checkIn r.checkOut = false then
        ⟨some CreateError.saveFailed, s, none⟩
      else
        let b := newBookingOf userId newId r listing
        ⟨none, { s with bookings := s.bookings ++ [b] }, some b⟩

/-- `GET /api/bookings` status filter: `if (status) filter.status = status`. -/
def statusMatches (st : Option BookingStatus) (b : Booking) : Bool :=
  match st with
  | some x => b.status == x
  | none => true

/-- Handler of `GET /api/bookings` (`bookings.js` lines 141–170): the filter
constrains the guest when `type === 'guest'`, the listing (to the caller's
listings) when `type === 'host'`, and nothing otherwise; an optional status
filter is added on top. -/
def getBookings (userId : Nat) (typ : String) (st : Option BookingStatus)
    (s : Store) : List Booking :=
  let base :=
    if typ == "guest" then
      s.bookings.filter (fun b => b.guest == userId)
    else if typ == "host" then
      let listingIds := (s.listings.filter (fun l => l.host == userId)).map
        (fun l => l.id)
      s.bookings.filter (fun b => listingIds.contains b.listing)
    else
      s.bookings
  base.filter (statusMatches st)

/-- The distinct failures of `PUT /api/bookings/:id/cancel`, in source order.
`internal` is the 500 raised when the populated listing is missing and
`booking.listing.host` dereferences null; `saveFailed` is the 500 raised when
`booking.save()` is rejected by the pre-save hook. -/
inductive CancelError
  | validation
  | notFound
  | internal
  | forbidden
  | alreadyCancelled
  | completedBooking
  | saveFailed
deriving DecidableEq

/-- `body('reason').optional().isLength({max:500})`. -/
def validReason (reason : Option String) : Bool :=
  match reason with
  | none => true
  | some r => decide (r.length ≤ 500)

/-- `req.body.reason || 'No reason provided'` (an empty string is falsy). -/
def reasonText (reason : Option String) : String :=
  match reason with
  | some r => if r = "" then "No reason provided" else r
  | none => "No reason provided"

/-- Handler of `PUT /api/bookings/:id/cancel` (`bookings.js` lines 206–261):
validation, booking lookup, listing-host authorization, the two status checks,
then the mutation and `booking.save()` (which re-runs the pre-save hook on the
unchanged dates). -/
def cancelBooking (today userId : Nat) (s : Store) (bid : Nat)
    (reason : Option String) : Option CancelError × Store :=
  if validReason reason = false then (some CancelError.validation, s)
  else
    match findBooking s bid with
    | none => (some CancelError.notFound, s)
    | some b =>
      match findListing s b.listing with
      | none => (some CancelError.internal, s)
      | some listing =>
        if b.guest != userId && listing.host != userId then
          (some CancelError.forbidden, s)
        else if b.status == BookingStatus.cancelled then
          (some CancelError.alreadyCancelled, s)
        else if b.status == BookingStatus.completed then
          (some CancelError.completedBooking, s)
        else if saveOk today b.checkIn b.checkOut = false then
          (some CancelError.saveFailed, s)
        else
          (none, updateBooking s
            { b with
              status := BookingStatus.cancelled
              cancellationReason := some (reasonText reason) })

/-- The distinct failures of `PUT /api/bookings/:id/review`, in source order. -/
inductive ReviewError
  | validation
  | notFound
  | forbidden
  | notCompleted
  | alreadyReviewed
  | saveFailed
deriving DecidableEq

/-- `body('rating').isInt({min:1,max:5})` and
`body('comment').optional().isLength({max:500})`. -/
def validReview (rating : Nat) (comment : Option String) : Bool :=
  decide (1 ≤ rating) && decide (rating ≤ 5) &&
    (match comment with
     | none => true
     | some c => decide (c.length ≤ 500))

/-- `booking.review && booking.review.rating` — a stored review counts as
present when its rating is truthy (non-zero). -/
def reviewPresent (b : Booking) : Bool :=
  match b.review with
  | some rv => rv.rating != 0
  | none => false

/-- `comment || ''`. -/
def commentText (comment : Option String) : String :=
  match comment with
  | some c => c
  | none => ""

/-- `bookings.js` lines 316–321: `totalRating = average * count + rating`,
then `count += 1`, then `average = totalRating / count` — i.e. the new average
is `(oldAverage * oldCount + rating) / (oldCount + 1)`. -/
def applyReview (l : Listing) (rating : Nat) : Listing :=
  let totalRating : ℚ := l.rating.average * (l.rating.count : ℚ) + (rating : ℚ)
  let newCount : Nat := l.rating.count + 1
  { l with rating := { average := totalRating / (newCount : ℚ), count := newCount } }

/-- Handler of `PUT /api/bookings/:id/review` (`bookings.js` lines 266–335):
validation, booking lookup, guest check, completed-status check,
duplicate-review check, then the review write (`booking.save()`, which re-runs
the pre-save hook) followed by the listing rating rollup; a missing listing is
tolerated (`if (listing)`). -/
def reviewBooking (today userId : Nat) (s : Store) (bid rating : Nat)
    (comment : Option String) (now : Nat) : Option ReviewError × Store :=
  if validReview rating comment = false then (some ReviewError.validation, s)
  else
    match findBooking s bid with
    | none => (some ReviewError.notFound, s)
    | some b =>
      if b.guest != userId then (some ReviewError.forbidden, s)
      else if b.status != BookingStatus.completed then
        (some ReviewError.notCompleted, s)
      else if reviewPresent b then (some ReviewError.alreadyReviewed, s)
      else if saveOk today b.checkIn b.checkOut = false then
        (some ReviewError.saveFailed, s)
      else
        let rv : Review :=
          { rating := rating
            comment := commentText comment
            reviewDate := now }
        let s1 := updateBooking s { b with review := some rv }
        match findListing s1 b.listing with
        | none => (none, s1)
        | some l => (none, updateListing s1 (applyReview l rating))

/-- The pagination block returned by `GET /api/listings`
(`listings.js` lines 129–138). -/
structure PageInfo where
  currentPage : Nat
  totalPages : Nat
  totalListings : Nat
  hasNextPage : Bool
  hasPreviousPage : Bool
deriving DecidableEq

/-- `Math.ceil(totalListings / limit)` for `limit ≥ 1`. -/
def totalPagesFor (totalListings limit : Nat) : Nat :=
  (totalListings + limit - 1) / limit

/-- `listings.js` lines 126–137: total pages and the two page flags. -/
def paginate (page limit totalListings : Nat) : PageInfo :=
  { currentPage := page
    totalPages := totalPagesFor totalListings limit
    totalListings := totalListings
    hasNextPage := decide (page < totalPagesFor totalListings limit)
    hasPreviousPage := decide (1 < page) }

/-- `query('page').optional().isInt({min:1})` and
`query('limit').optional().isInt({min:1,max:50})`. -/
def validListQuery (pageQ limitQ : Option Nat) : Bool :=
  (match pageQ with
   | none => true
   | some p => decide (1 ≤ p)) &&
  (match limitQ with
   | none => true
   | some l => decide (1 ≤ l) && decide (l ≤ 50))

/-- `const { page = 1, limit = 12 } = req.query` feeding `paginate`. -/
def searchPagination (pageQ limitQ : Option Nat) (totalListings : Nat) :
    PageInfo :=
  paginate (pageQ.getD 1) (limitQ.getD 12) totalListings

/-! ## Helper lemmas -/

/-- `(t + l - 1) / l` (natural division) is the ceiling of `t / l`. -/
theorem ceilDiv_intCast (t l : Nat) (hl : 1 ≤ l) :
    (((t + l - 1) / l : Nat) : ℤ) = ⌈(t : ℚ) / (l : ℚ)⌉ := by
  have hl0 : 0 < l := hl
  have hmod := Nat.div_add_mod (t + l - 1) l
  have hlt : (t + l - 1) % l < l := Nat.mod_lt _ hl0
  have hposQ : (0 : ℚ) < (l : ℚ) := by exact_mod_cast hl0
  set n := (t + l - 1) / l with hn
  have h1 : t ≤ l * n := by omega
  have h2 : l * n + 1 ≤ t + l := by omega
  symm
  rw [Int.ceil_eq_iff]
  constructor
  · rw [lt_div_iff₀ hposQ]
    have hc : ((l * n : Nat) : ℚ) + 1 ≤ (t : ℚ) + (l : ℚ) := by exact_mod_cast h2
    push_cast at hc ⊢
    linarith
  · rw [div_le_iff₀ hposQ]
    have hc : (t : ℚ) ≤ ((l * n : Nat) : ℚ) := by exact_mod_cast h1
    push_cast at hc ⊢
    linarith

/-- `nights` computes the ceiling of the day difference. -/
theorem nights_eq_ceil (checkIn checkOut : Nat) (h : checkIn ≤ checkOut) :
    ((nights checkIn checkOut : Nat) : ℤ) =
      ⌈((checkOut : ℚ) - (checkIn : ℚ)) / (msPerDay : ℚ)⌉ := by
  rw [← Nat.cast_sub h]
  unfold nights
  exact ceilDiv_intCast (checkOut - checkIn) msPerDay (by norm_num [msPerDay])

/-- The route validators imply the schema's pre-save conditions at creation. -/
theorem saveOk_of_validCreate (today : Nat) (r : CreateReq)
    (h : validCreate today r = true) :
    saveOk today r.checkIn r.checkOut = true := by
  unfold validCreate at h
  unfold saveOk
  simp only [Bool.and_eq_true, decide_eq_true_eq] at h ⊢
  exact ⟨h.1.2, h.1.1⟩

/-- Shape of the creation handler once the listing checks have passed:
everything hinges on the overlap query. -/
theorem createBooking_of_checks (today userId newId : Nat) (s : Store)
    (r : CreateReq) (l : Listing)
    (hval : validCreate today r = true)
    (hl : findListing s r.listing = some l)
    (hact : l.isActive = true)
    (hcap : totalGuests r.guests ≤ l.maxGuests) :
    createBooking today userId newId s r =
      if s.bookings.any (overlapsReq r) then
        ⟨some CreateError.dateConflict, s, none⟩
      else
        ⟨none, { s with bookings := s.bookings ++ [newBookingOf userId newId r l] },
          some (newBookingOf userId newId r l)⟩ := by
  simp only [createBooking, hval, hl, hact, saveOk_of_validCreate today r hval,
    Nat.not_lt.mpr hcap, Bool.true_eq_false, if_false, ite_false, ite_true]

/-- Failed field validation short-circuits the creation handler. -/
theorem createBooking_invalid_eq (today userId newId : Nat) (s : Store)
    (r : CreateReq) (h : validCreate today r = false) :
    createBooking today userId newId s r =
      ⟨some CreateError.validation, s, none⟩ := by
  simp only [createBooking, h, if_true, ite_true]

/-- A missing listing yields the not-found error. -/
theorem createBooking_notFound_eq (today userId newId : Nat) (s : Store)
    (r : CreateReq) (hval : validCreate today r = true)
    (hfind : findListing s r.listing = none) :
    createBooking today userId newId s r =
      ⟨some CreateError.listingNotFound, s, none⟩ := by
  simp only [createBooking, hval, hfind, Bool.true_eq_false, if_false, ite_false]

/-- An inactive listing yields the not-available error. -/
theorem createBooking_inactive_eq (today userId newId : Nat) (s : Store)
    (r : CreateReq) (l : Listing) (hval : validCreate today r = true)
    (hl : findListing s r.listing = some l) (hact : l.isActive = false) :
    createBooking today userId newId s r =
      ⟨some CreateError.listingInactive, s, none⟩ := by
  simp only [createBooking, hval, hl, hact, Bool.true_eq_false, if_false,
    ite_false, if_true, ite_true]

/-- Exceeding the listing's capacity yields the capacity error. -/
theorem createBooking_capacity_eq (today userId newId : Nat) (s : Store)
    (r : CreateReq) (l : Listing) (hval : validCreate today r = true)
    (hl : findListing s r.listing = some l) (hact : l.isActive = true)
    (hcap : l.maxGuests < totalGuests r.guests) :
    createBooking today userId newId s r =
      ⟨some CreateError.capacity, s, none⟩ := by
  simp only [createBooking, hval, hl, hact, hcap, Bool.true_eq_false, if_false,
    ite_false, if_true, ite_true]

/-- Inversion: a successfully created booking is the document built by
`newBookingOf` for the listing found in the store, appended to the
collection. -/
theorem createBooking_booking_eq (today userId newId : Nat) (s : Store)
    (r : CreateReq) (b : Booking)
    (hb : (createBooking today userId newId s r).booking = some b) :
    validCreate today r = true ∧
    ∃ l, findListing s r.listing = some l ∧ b = newBookingOf userId newId r l ∧
      b ∈ (createBooking today userId newId s r).store.bookings := by
  by_cases hval : validCreate today r = true
  · refine ⟨hval, ?_⟩
    cases hfind : findListing s r.listing with
    | none =>
      rw [createBooking_notFound_eq today userId newId s r hval hfind] at hb
      cases hb
    | some l =>
      by_cases hact : l.isActive = true
      · by_cases hcap : totalGuests r.guests ≤ l.maxGuests
        · have hc := createBooking_of_checks today userId newId s r l hval hfind
            hact hcap
          by_cases hov : s.bookings.any (overlapsReq r) = true
          · rw [hc] at hb
            simp only [hov, if_true, ite_true] at hb
            cases hb
          · have hov' : s.bookings.any (overlapsReq r) = false :=
              Bool.eq_false_iff.mpr hov
            rw [hc] at hb
            simp only [hov', Bool.false_eq_true, if_false, ite_false] at hb
            have hbe : b = newBookingOf userId newId r l :=
              (Option.some.inj hb).symm
            refine ⟨l, rfl, hbe, ?_⟩
            rw [hc]
            simp only [hov', Bool.false_eq_true, if_false, ite_false]
            show b ∈ s.bookings ++ [newBookingOf userId newId r l]
            exact List.mem_append_right _ (List.mem_singleton.mpr hbe)
        · rw [createBooking_capacity_eq today userId newId s r l hval hfind hact
            (Nat.lt_of_not_le hcap)] at hb
          cases hb
      · rw [createBooking_inactive_eq today userId newId s r l hval hfind
          (Bool.eq_false_iff.mpr hact)] at hb
        cases hb
  · rw [createBooking_invalid_eq today userId newId s r
      (Bool.eq_false_iff.mpr hval)] at hb
    cases hb

/-- A review request with an unknown booking id is a not-found failure. -/
theorem reviewBooking_notFound_eq (today userId : Nat) (s : Store)
    (bid rating : Nat) (comment : Option String) (now : Nat)
    (hval : validReview rating comment = true)
    (hb : findBooking s bid = none) :
    reviewBooking today userId s bid rating comment now =
      (some ReviewError.notFound, s) := by
  simp only [reviewBooking, hval, hb, Bool.true_eq_false, if_false, ite_false]

/-- A review by anyone but the booking's guest is a forbidden failure. -/
theorem reviewBooking_forbidden_eq (today userId : Nat) (s : Store)
    (bid rating : Nat) (comment : Option String) (now : Nat) (b : Booking)
    (hval : validReview rating comment = true)
    (hb : findBooking s bid = some b)
    (hg : b.guest ≠ userId) :
    reviewBooking today userId s bid rating comment now =
      (some ReviewError.forbidden, s) := by
  simp only [reviewBooking, hval, hb, Bool.true_eq_false, if_false, ite_false,
    bne_iff_ne, ne_eq, hg, not_false_eq_true, if_true, ite_true]

/-- A review of a booking that is not completed is a state failure. -/
theorem reviewBooking_notCompleted_eq (today userId : Nat) (s : Store)
    (bid rating : Nat) (comment : Option String) (now : Nat) (b : Booking)
    (hval : validReview rating comment = true)
    (hb : findBooking s bid = some b)
    (hg : b.guest = userId)
    (hst : b.status ≠ BookingStatus.completed) :
    reviewBooking today userId s bid rating comment now =
      (some ReviewError.notCompleted, s) := by
  simp only [reviewBooking, hval, hb, hg, Bool.true_eq_false,
    Bool.false_eq_true, if_false, ite_false, bne_self_eq_false, bne_iff_ne,
    ne_eq, hst, not_false_eq_true, if_true, ite_true]

/-- A second review of the same booking is the duplicate-review failure and
leaves the store untouched. -/
theorem reviewBooking_already_eq (today userId : Nat) (s : Store)
    (bid rating : Nat) (comment : Option String) (now : Nat) (b : Booking)
    (hval : validReview rating comment = true)
    (hb : findBooking s bid = some b)
    (hg : b.guest = userId)
    (hst : b.status = BookingStatus.completed)
    (hrev : reviewPresent b = true) :
    reviewBooking today userId s bid rating comment now =
      (some ReviewError.alreadyReviewed, s) := by
  simp only [reviewBooking, hval, hb, hg, hst, hrev, Bool.true_eq_false,
    Bool.false_eq_true, if_false, ite_false, bne_self_eq_false, if_true,
    ite_true]

/-- When the pre-save hook rejects the booking's stored dates, the review
write fails and the store is untouched. -/
theorem reviewBooking_saveFailed_eq (today userId : Nat) (s : Store)
    (bid rating : Nat) (comment : Option String) (now : Nat) (b : Booking)
    (hval : validReview rating comment = true)
    (hb : findBooking s bid = some b)
    (hg : b.guest = userId)
    (hst : b.status = BookingStatus.completed)
    (hrev : reviewPresent b = false)
    (hsave : saveOk today b.checkIn b.checkOut = false) :
    reviewBooking today userId s bid rating comment now =
      (some ReviewError.saveFailed, s) := by
  simp only [reviewBooking, hval, hb, hg, hst, hrev, hsave, Bool.true_eq_false,
    Bool.false_eq_true, if_false, ite_false, bne_self_eq_false, if_true,
    ite_true]

/-- When the pre-save hook rejects the booking's stored dates, cancellation
fails with a 500 and the store is untouched. -/
theorem cancelBooking_saveFailed_eq (today userId : Nat) (s : Store)
    (bid : Nat) (reason : Option String) (b : Booking) (l : Listing)
    (hres : validReason reason = true)
    (hb : findBooking s bid = some b)
    (hl : findListing s b.listing = some l)
    (hg : b.guest = userId)
    (hst : b.status = BookingStatus.pending ∨ b.status = BookingStatus.confirmed)
    (hsave : saveOk today b.checkIn b.checkOut = false) :
    cancelBooking today userId s bid reason =
      (some CancelError.saveFailed, s) := by
  have hnc : (b.status == BookingStatus.cancelled) = false := by
    cases hst with
    | inl h => rw [h]; rfl
    | inr h => rw [h]; rfl
  have hnd : (b.status == BookingStatus.completed) = false := by
    cases hst with
    | inl h => rw [h]; rfl
    | inr h => rw [h]; rfl
  simp only [cancelBooking, hres, hb, hl, hg, hnc, hnd, hsave,
    Bool.true_eq_false, Bool.false_eq_true, if_false, ite_false,
    bne_self_eq_false, Bool.false_and, if_true, ite_true]

/-- The boolean overlap query succeeds exactly when some stored booking on the
same listing with status `pending` or `confirmed` overlaps the requested
half-open interval. -/
theorem any_overlaps_iff (s : Store) (r : CreateReq) :
    s.bookings.any (overlapsReq r) = true ↔
      ∃ b ∈ s.bookings, b.listing = r.listing ∧
        (b.status = BookingStatus.pending ∨ b.status = BookingStatus.confirmed) ∧
        b.checkIn < r.checkOut ∧ r.checkIn < b.checkOut := by
  rw [List.any_eq_true]
  constructor
  · rintro ⟨b, hmem, hp⟩
    simp only [overlapsReq, Bool.and_eq_true, Bool.or_eq_true, beq_iff_eq,
      decide_eq_true_eq] at hp
    exact ⟨b, hmem, hp.1.1.1, hp.1.1.2, hp.1.2, hp.2⟩
  · rintro ⟨b, hmem, h1, h2, h3, h4⟩
    refine ⟨b, hmem, ?_⟩
    simp only [overlapsReq, Bool.and_eq_true, Bool.or_eq_true, beq_iff_eq,
      decide_eq_true_eq]
    exact ⟨⟨⟨h1, h2⟩, h3⟩, h4⟩

/-! ## Concrete fixtures

A small store realizing the spec's scenarios: the scenario listing
(price 150, capacity 4, rating average 4.8 = 24/5 over 24 reviews) and four
bookings in the four statuses.  Dates are whole days, written as multiples of
`msPerDay`. -/

/-- The spec's scenario listing. -/
def demoListing : Listing :=
  { id := 10
    host := 1
    price := 150
    maxGuests := 4
    rating := { average := 24 / 5, count := 24 }
    isActive := true }

/-- A confirmed booking `[day 1, day 5)` on the demo listing. -/
def demoConfirmed : Booking :=
  { id := 1
    listing := 10
    guest := 2
    checkIn := 1 * msPerDay
    checkOut := 5 * msPerDay
    guests := ⟨2, 0, 0⟩
    totalAmount := 600
    status := BookingStatus.confirmed
    cancellationReason := none
    review := none }

/-- A completed, not yet reviewed booking `[day 0, day 1)`: its check-in is in
the past once `today` is day 1 or later. -/
def demoCompleted : Booking :=
  { id := 2
    listing := 10
    guest := 3
    checkIn := 0
    checkOut := 1 * msPerDay
    guests := ⟨1, 0, 0⟩
    totalAmount := 150
    status := BookingStatus.completed
    cancellationReason := none
    review := none }

/-- A pending booking `[day 0, day 3)` whose check-in is in the past once
`today` is day 1 or later. -/
def demoPending : Booking :=
  { id := 3
    listing := 10
    guest := 4
    checkIn := 0
    checkOut := 3 * msPerDay
    guests := ⟨2, 1, 0⟩
    totalAmount := 450
    status := BookingStatus.pending
    cancellationReason := none
    review := none }

/-- A completed booking `[day 6, day 8)` that already carries a review. -/
def demoReviewed : Booking :=
  { id := 4
    listing := 10
    guest := 5
    checkIn := 6 * msPerDay
    checkOut := 8 * msPerDay
    guests := ⟨2, 0, 0⟩
    totalAmount := 300
    status := BookingStatus.completed
    cancellationReason := none
    review := some { rating := 4, comment := "nice stay", reviewDate := 0 } }

/-- The demo database. -/
def demoStore : Store :=
  { listings := [demoListing]
    bookings := [demoConfirmed, demoCompleted, demoPending, demoReviewed] }

/-- The spec's back-to-back request `[day 5, day 7)`: its check-in equals the
confirmed booking's check-out. -/
def backToBackReq : CreateReq :=
  { listing := 10
    checkIn := 5 * msPerDay
    checkOut := 7 * msPerDay
    guests := ⟨2, 0, 0⟩ }

/-! ## Claims -/

/-- **C1.** Booking creation fails with an availability conflict if and only
if some booking for the same listing with status `pending` or `confirmed` has
a `[checkIn, checkOut)` interval overlapping the requested one under
half-open semantics (`a < d ∧ c < b`); in particular a request whose check-in
equals an existing booking's check-out does not conflict.  Stated for
requests that pass the earlier checks (field validation, listing found and
active, capacity), which is where the overlap query runs. -/
theorem createBooking_conflict_iff (today userId newId : Nat) (s : Store)
    (r : CreateReq) (l : Listing)
    (hval : validCreate today r = true)
    (hl : findListing s r.listing = some l)
    (hact : l.isActive = true)
    (hcap : totalGuests r.guests ≤ l.maxGuests) :
    (createBooking today userId newId s r).error = some CreateError.dateConflict ↔
      ∃ b ∈ s.bookings, b.listing = r.listing ∧
        (b.status = BookingStatus.pending ∨ b.status = BookingStatus.confirmed) ∧
        b.checkIn < r.checkOut ∧ r.checkIn < b.checkOut := by
  rw [← any_overlaps_iff s r,
    createBooking_of_checks today userId newId s r l hval hl hact hcap]
  by_cases hov : s.bookings.any (overlapsReq r) = true
  · simp [hov]
  · simp [Bool.eq_false_iff.mpr hov]

/-- **C1 witness**: the spec's back-to-back scenario — a request `[day 5, day
7)` against the store holding a confirmed booking `[day 1, day 5)` — at which
the equivalence holds concretely (and neither side obtains: no conflict). -/
theorem createBooking_conflict_iff_witness :
    validCreate 0 backToBackReq = true ∧
    ((createBooking 0 7 99 demoStore backToBackReq).error =
        some CreateError.dateConflict ↔
      ∃ b ∈ demoStore.bookings, b.listing = backToBackReq.listing ∧
        (b.status = BookingStatus.pending ∨ b.status = BookingStatus.confirmed) ∧
        b.checkIn < backToBackReq.checkOut ∧
          backToBackReq.checkIn < b.checkOut) :=
  ⟨by decide,
    createBooking_conflict_iff 0 7 99 demoStore backToBackReq demoListing
      (by decide) rfl rfl (by decide)⟩

/-- **C2.** Every successfully created booking is persisted with
`totalAmount = ⌈(checkOut − checkIn) in days⌉ × price` of the listing the
request names, exactly. -/
theorem createBooking_totalAmount (today userId newId : Nat) (s : Store)
    (r : CreateReq) (l : Listing)
    (hl : findListing s r.listing = some l) (b : Booking)
    (hb : (createBooking today userId newId s r).booking = some b) :
    b.totalAmount =
      ((⌈((r.checkOut : ℚ) - (r.checkIn : ℚ)) / (msPerDay : ℚ)⌉ : ℤ) : ℚ) *
        l.price ∧
    b ∈ (createBooking today userId newId s r).store.bookings := by
  obtain ⟨hval, l', hl', hbe, hmem⟩ :=
    createBooking_booking_eq today userId newId s r b hb
  rw [hl] at hl'
  cases Option.some.inj hl'
  refine ⟨?_, hmem⟩
  have hle : r.checkIn ≤ r.checkOut := by
    unfold validCreate at hval
    simp only [Bool.and_eq_true, decide_eq_true_eq] at hval
    exact le_of_lt hval.1.2
  have hnc := nights_eq_ceil r.checkIn r.checkOut hle
  rw [hbe]
  show (nights r.checkIn r.checkOut : ℚ) * l.price = _
  rw [← hnc]
  push_cast
  ring

/-- **C2 witness**: the spec's scenario — price 150, request `[day 5, day 7)`
→ the created booking is stored with total amount `2 × 150 = 300`. -/
theorem createBooking_totalAmount_witness :
    findListing demoStore backToBackReq.listing = some demoListing ∧
    (createBooking 0 7 99 demoStore backToBackReq).booking =
      some (newBookingOf 7 99 backToBackReq demoListing) ∧
    (newBookingOf 7 99 backToBackReq demoListing).totalAmount =
      ((⌈((backToBackReq.checkOut : ℚ) - (backToBackReq.checkIn : ℚ)) /
          (msPerDay : ℚ)⌉ : ℤ) : ℚ) * demoListing.price ∧
    (newBookingOf 7 99 backToBackReq demoListing).totalAmount = 300 ∧
    newBookingOf 7 99 backToBackReq demoListing ∈
      (createBooking 0 7 99 demoStore backToBackReq).store.bookings :=
  ⟨rfl, rfl,
    (createBooking_totalAmount 0 7 99 demoStore backToBackReq demoListing
      rfl (newBookingOf 7 99 backToBackReq demoListing) rfl).1,
    by
      show (nights backToBackReq.checkIn backToBackReq.checkOut : ℚ) *
        demoListing.price = 300
      rw [show nights backToBackReq.checkIn backToBackReq.checkOut = 2 from by
        decide]
      norm_num [demoListing],
    (createBooking_totalAmount 0 7 99 demoStore backToBackReq demoListing
      rfl (newBookingOf 7 99 backToBackReq demoListing) rfl).2⟩

/-- **C3** (code-bug evidence).  The booking's guest (user 3) submits a first
review with rating 5 on the completed, unreviewed booking 2; yet because the
booking's check-in (day 0) is before the current day (day 2), the pre-save
hook re-raises `Check-in date cannot be in the past` inside `booking.save()`:
the handler answers 500, no review is stored and the listing's rating is
untouched — the operation does not succeed as the claim states. -/
theorem reviewBooking_pastCheckIn_fails :
    reviewBooking (2 * msPerDay) 3 demoStore 2 5 none (2 * msPerDay) =
      (some ReviewError.saveFailed, demoStore) := rfl

/-- **C4.** A review request by the guest, with a valid rating, on a
completed booking that already carries a review always fails with the
duplicate-review conflict, and the store — the booking's stored review and
the listing's rating aggregate included — is unchanged. -/
theorem reviewBooking_duplicate_conflict (today userId : Nat) (s : Store)
    (bid rating : Nat) (comment : Option String) (now : Nat) (b : Booking)
    (hb : findBooking s bid = some b)
    (hg : b.guest = userId)
    (hst : b.status = BookingStatus.completed)
    (hrev : reviewPresent b = true)
    (hval : validReview rating comment = true) :
    reviewBooking today userId s bid rating comment now =
      (some ReviewError.alreadyReviewed, s) :=
  reviewBooking_already_eq today userId s bid rating comment now b hval hb hg
    hst hrev

/-- **C4 witness**: user 5 re-reviews the already-reviewed booking 4 with
rating 2 — the duplicate-review conflict is returned and the demo store is
returned unchanged. -/
theorem reviewBooking_duplicate_conflict_witness :
    (findBooking demoStore 4 = some demoReviewed ∧
      demoReviewed.guest = 5 ∧
      demoReviewed.status = BookingStatus.completed ∧
      reviewPresent demoReviewed = true ∧
      validReview 2 none = true) ∧
    reviewBooking 0 5 demoStore 4 2 none 0 =
      (some ReviewError.alreadyReviewed, demoStore) :=
  ⟨⟨rfl, rfl, rfl, rfl, by decide⟩,
    reviewBooking_duplicate_conflict 0 5 demoStore 4 2 none 0 demoReviewed rfl
      rfl rfl rfl (by decide)⟩

/-- **C5** (code-bug evidence).  The booking's guest (user 4) cancels the
pending booking 3 with no reason given; yet because the booking's check-in
(day 0) is before the current day (day 2), the pre-save hook re-raises
`Check-in date cannot be in the past` inside `booking.save()`: the handler
answers 500 and the booking stays pending — cancellation of a pending booking
by an authorized caller does not always succeed as the claim states. -/
theorem cancelBooking_pastCheckIn_fails :
    cancelBooking (2 * msPerDay) 4 demoStore 3 none =
      (some CancelError.saveFailed, demoStore) := rfl

/-- **C6.** A creation request with `checkOut ≤ checkIn` — or one whose
check-in lies before the start of the current day — fails field validation:
the handler reports the validation failure and no booking is persisted (the
store is returned unchanged). -/
theorem createBooking_dateValidation (today userId newId : Nat) (s : Store)
    (r : CreateReq) (h : r.checkOut ≤ r.checkIn ∨ r.checkIn < today) :
    createBooking today userId newId s r =
      ⟨some CreateError.validation, s, none⟩ := by
  apply createBooking_invalid_eq
  unfold validCreate
  cases h with
  | inl h =>
    have hd : decide (r.checkIn < r.checkOut) = false :=
      decide_eq_false (Nat.not_lt.mpr h)
    simp [hd]
  | inr h =>
    have hd : decide (today ≤ r.checkIn) = false :=
      decide_eq_false (Nat.not_le.mpr h)
    simp [hd]

/-- A zero-night request: check-out equals check-in (day 2). -/
def sameDayReq : CreateReq :=
  { listing := 10
    checkIn := 2 * msPerDay
    checkOut := 2 * msPerDay
    guests := ⟨2, 0, 0⟩ }

/-- **C6 witness**: the zero-night request is rejected as a validation
failure and the demo store is unchanged, with no booking created. -/
theorem createBooking_dateValidation_witness :
    (sameDayReq.checkOut ≤ sameDayReq.checkIn ∨ sameDayReq.checkIn < 0) ∧
    createBooking 0 6 99 demoStore sameDayReq =
      ⟨some CreateError.validation, demoStore, none⟩ :=
  ⟨Or.inl (by decide),
    createBooking_dateValidation 0 6 99 demoStore sameDayReq
      (Or.inl (by decide))⟩

/-- A request naming a listing that is not in the store, with reversed dates
(check-out on day 1 before check-in on day 2). -/
def badOrderReq : CreateReq :=
  { listing := 999
    checkIn := 2 * msPerDay
    checkOut := 1 * msPerDay
    guests := ⟨1, 0, 0⟩ }

/-- **C7 counterexample.**  The claim puts listing existence first and date
validation third, so an input failing both should report the not-found
failure.  On a request naming a nonexistent listing with reversed dates, the
code reports the date-validation failure instead: the `express-validator`
chain runs before the handler ever looks the listing up. -/
theorem bookingChecks_order_counterexample :
    findListing demoStore badOrderReq.listing = none ∧
    badOrderReq.checkOut ≤ badOrderReq.checkIn ∧
    (createBooking 0 1 99 demoStore badOrderReq).error =
      some CreateError.validation ∧
    (createBooking 0 1 99 demoStore badOrderReq).error ≠
      some CreateError.listingNotFound :=
  ⟨rfl, by decide, rfl, by decide⟩

/-- **C7** (amended).  Each booking operation checks its preconditions in a
fixed deterministic order with a distinct failure per check — but the actual
order is: for creation, field/date validation first, then listing existence,
then listing activity, then capacity, then overlap; for review submission,
field validation, then existence, then permission (guest), then state
(completed), then the duplicate-review business rule. -/
theorem bookingChecks_order (today userId newId : Nat) (s : Store)
    (r : CreateReq) (bid rating : Nat) (comment : Option String) (now : Nat) :
    (validCreate today r = false →
      (createBooking today userId newId s r).error =
        some CreateError.validation) ∧
    (validCreate today r = true → findListing s r.listing = none →
      (createBooking today userId newId s r).error =
        some CreateError.listingNotFound) ∧
    (∀ l, validCreate today r = true → findListing s r.listing = some l →
      l.isActive = false →
      (createBooking today userId newId s r).error =
        some CreateError.listingInactive) ∧
    (∀ l, validCreate today r = true → findListing s r.listing = some l →
      l.isActive = true → l.maxGuests < totalGuests r.guests →
      (createBooking today userId newId s r).error =
        some CreateError.capacity) ∧
    (∀ l, validCreate today r = true → findListing s r.listing = some l →
      l.isActive = true → totalGuests r.guests ≤ l.maxGuests →
      s.bookings.any (overlapsReq r) = true →
      (createBooking today userId newId s r).error =
        some CreateError.dateConflict) ∧
    (validReview rating comment = true → findBooking s bid = none →
      (reviewBooking today userId s bid rating comment now).1 =
        some ReviewError.notFound) ∧
    (∀ b, validReview rating comment = true → findBooking s bid = some b →
      b.guest ≠ userId →
      (reviewBooking today userId s bid rating comment now).1 =
        some ReviewError.forbidden) ∧
    (∀ b, validReview rating comment = true → findBooking s bid = some b →
      b.guest = userId → b.status ≠ BookingStatus.completed →
      (reviewBooking today userId s bid rating comment now).1 =
        some ReviewError.notCompleted) ∧
    (∀ b, validReview rating comment = true → findBooking s bid = some b →
      b.guest = userId → b.status = BookingStatus.completed →
      reviewPresent b = true →
      (reviewBooking today userId s bid rating comment now).1 =
        some ReviewError.alreadyReviewed) := by
  refine ⟨?_, ?_, ?_, ?_, ?_, ?_, ?_, ?_, ?_⟩
  · intro h
    rw [createBooking_invalid_eq today userId newId s r h]
  · intro h1 h2
    rw [createBooking_notFound_eq today userId newId s r h1 h2]
  · intro l h1 h2 h3
    rw [createBooking_inactive_eq today userId newId s r l h1 h2 h3]
  · intro l h1 h2 h3 h4
    rw [createBooking_capacity_eq today userId newId s r l h1 h2 h3 h4]
  · intro l h1 h2 h3 h4 h5
    rw [createBooking_of_checks today userId newId s r l h1 h2 h3 h4]
    simp [h5]
  · intro h1 h2
    rw [reviewBooking_notFound_eq today userId s bid rating comment now h1 h2]
  · intro b h1 h2 h3
    rw [reviewBooking_forbidden_eq today userId s bid rating comment now b h1
      h2 h3]
  · intro b h1 h2 h3 h4
    rw [reviewBooking_notCompleted_eq today userId s bid rating comment now b
      h1 h2 h3 h4]
  · intro b h1 h2 h3 h4 h5
    rw [reviewBooking_already_eq today userId s bid rating comment now b h1 h2
      h3 h4 h5]

/-- **C7 witness** (for the amended order): on the request with a nonexistent
listing and reversed dates, the first check in the amended order — field/date
validation — is the one that fires. -/
theorem bookingChecks_order_witness :
    validCreate 0 badOrderReq = false ∧
    (createBooking 0 1 99 demoStore badOrderReq).error =
      some CreateError.validation :=
  ⟨by decide,
    (bookingChecks_order 0 1 99 demoStore badOrderReq 1 5 none 0).1
      (by decide)⟩

/-- **C8.** For a page number ≥ 1 and a page size within the validated 1–50
range, the pagination block reports `totalPages = ⌈totalListings / limit⌉`,
`hasNextPage` exactly when `page < totalPages`, and `hasPreviousPage` exactly
when `page > 1`; an omitted page size defaults to 12. -/
theorem paginate_spec (page limit total : Nat) (hp : 1 ≤ page)
    (hl : 1 ≤ limit) (hu : limit ≤ 50) :
    (((paginate page limit total).totalPages : Nat) : ℤ) =
      ⌈(total : ℚ) / (limit : ℚ)⌉ ∧
    ((paginate page limit total).hasNextPage = true ↔
      page < (paginate page limit total).totalPages) ∧
    ((paginate page limit total).hasPreviousPage = true ↔ 1 < page) ∧
    searchPagination (some page) none total = paginate page 12 total := by
  refine ⟨?_, ?_, ?_, rfl⟩
  · show (((total + limit - 1) / limit : Nat) : ℤ) = _
    exact ceilDiv_intCast total limit hl
  · simp [paginate]
  · simp [paginate]

/-- **C8 witness**: the spec's scenario — 25 listings at the default page
size 12 give 3 pages, and page 3 has a previous page but no next page. -/
theorem paginate_spec_witness :
    ((1 : Nat) ≤ 3 ∧ (1 : Nat) ≤ 12 ∧ (12 : Nat) ≤ 50) ∧
    ((paginate 3 12 25).totalPages = 3 ∧
      (paginate 3 12 25).hasNextPage = false ∧
      (paginate 3 12 25).hasPreviousPage = true) ∧
    ((((paginate 3 12 25).totalPages : Nat) : ℤ) =
        ⌈((25 : Nat) : ℚ) / ((12 : Nat) : ℚ)⌉ ∧
      ((paginate 3 12 25).hasNextPage = true ↔
        3 < (paginate 3 12 25).totalPages) ∧
      ((paginate 3 12 25).hasPreviousPage = true ↔ 1 < 3) ∧
      searchPagination (some 3) none 25 = paginate 3 12 25) :=
  ⟨⟨by decide, by decide, by decide⟩, ⟨rfl, rfl, rfl⟩,
    paginate_spec 3 12 25 (by decide) (by decide) (by decide)⟩

/-- **C9.** When the booking-list query carries a `type` that is neither
`guest` nor `host`, the filter constrains neither the guest nor the listing:
the result is every booking in the store (subject only to the optional status
filter) and is independent of the caller's identity. -/
theorem getBookings_unknown_type (userId : Nat) (typ : String)
    (st : Option BookingStatus) (s : Store)
    (hg : typ ≠ "guest") (hh : typ ≠ "host") :
    getBookings userId typ st s = s.bookings.filter (statusMatches st) ∧
    ∀ otherUser, getBookings userId typ st s = getBookings otherUser typ st s := by
  have hbg : (typ == "guest") = false := beq_eq_false_iff_ne.mpr hg
  have hbh : (typ == "host") = false := beq_eq_false_iff_ne.mpr hh
  constructor
  · simp only [getBookings, hbg, hbh, Bool.false_eq_true, if_false, ite_false]
  · intro u
    simp only [getBookings, hbg, hbh, Bool.false_eq_true, if_false, ite_false]

/-- **C9 witness**: with `type=all`, caller 1 — who owns none of the bookings
— receives every booking in the demo store, and caller 42 receives the same
list. -/
theorem getBookings_unknown_type_witness :
    (("all" : String) ≠ "guest" ∧ ("all" : String) ≠ "host") ∧
    getBookings 1 "all" none demoStore =
      demoStore.bookings.filter (statusMatches none) ∧
    getBookings 1 "all" none demoStore = getBookings 42 "all" none demoStore :=
  ⟨⟨by decide, by decide⟩,
    (getBookings_unknown_type 1 "all" none demoStore (by decide) (by decide)).1,
    (getBookings_unknown_type 1 "all" none demoStore (by decide)
      (by decide)).2 42⟩

/-- **C10.** Saving a booking re-runs the schema's pre-save date validation,
so on a booking whose check-in is before the start of the current day both
mutating operations fail instead of completing: authorized cancellation of a
pending/confirmed booking and the guest's first review of a completed booking
each return the save error and leave the store unchanged. -/
theorem save_revalidation_blocks_mutations (today userIdC userIdR : Nat)
    (s : Store) (bidC bidR : Nat) (reason : Option String) (rating : Nat)
    (comment : Option String) (now : Nat) (bc br : Booking) (lc : Listing)
    (hres : validReason reason = true)
    (hbc : findBooking s bidC = some bc)
    (hlc : findListing s bc.listing = some lc)
    (hgc : bc.guest = userIdC)
    (hstc : bc.status = BookingStatus.pending ∨
      bc.status = BookingStatus.confirmed)
    (hpastc : bc.checkIn < today)
    (hval : validReview rating comment = true)
    (hbr : findBooking s bidR = some br)
    (hgr : br.guest = userIdR)
    (hstr : br.status = BookingStatus.completed)
    (hrevr : reviewPresent br = false)
    (hpastr : br.checkIn < today) :
    cancelBooking today userIdC s bidC reason =
      (some CancelError.saveFailed, s) ∧
    reviewBooking today userIdR s bidR rating comment now =
      (some ReviewError.saveFailed, s) := by
  have hs1 : saveOk today bc.checkIn bc.checkOut = false := by
    unfold saveOk
    simp [decide_eq_false (Nat.not_le.mpr hpastc)]
  have hs2 : saveOk today br.checkIn br.checkOut = false := by
    unfold saveOk
    simp [decide_eq_false (Nat.not_le.mpr hpastr)]
  exact ⟨cancelBooking_saveFailed_eq today userIdC s bidC reason bc lc hres
      hbc hlc hgc hstc hs1,
    reviewBooking_saveFailed_eq today userIdR s bidR rating comment now br
      hval hbr hgr hstr hrevr hs2⟩

/-- **C10 witness**: on day 3, user 4's cancellation of the pending booking 3
(check-in day 0) and user 3's first review of the completed booking 2
(check-in day 0) both fail with the save error, leaving the demo store
unchanged. -/
theorem save_revalidation_blocks_mutations_witness :
    (validReason (some "weather") = true ∧
      findBooking demoStore 3 = some demoPending ∧
      findListing demoStore demoPending.listing = some demoListing ∧
      demoPending.guest = 4 ∧
      demoPending.status = BookingStatus.pending ∧
      demoPending.checkIn < 3 * msPerDay ∧
      validReview 5 none = true ∧
      findBooking demoStore 2 = some demoCompleted ∧
      demoCompleted.guest = 3 ∧
      demoCompleted.status = BookingStatus.completed ∧
      reviewPresent demoCompleted = false ∧
      demoCompleted.checkIn < 3 * msPerDay) ∧
    cancelBooking (3 * msPerDay) 4 demoStore 3 (some "weather") =
      (some CancelError.saveFailed, demoStore) ∧
    reviewBooking (3 * msPerDay) 3 demoStore 2 5 none (9 * msPerDay) =
      (some ReviewError.saveFailed, demoStore) :=
  ⟨⟨by decide, rfl, rfl, rfl, rfl, by decide, by decide, rfl, rfl, rfl, rfl,
      by decide⟩,
    save_revalidation_blocks_mutations (3 * msPerDay) 4 3 demoStore 3 2
      (some "weather") 5 none (9 * msPerDay) demoPending demoCompleted
      demoListing (by decide) rfl rfl rfl (Or.inl rfl) (by decide) (by decide)
      rfl rfl rfl rfl (by decide)⟩

end StayFinder
